import Mathlib

set_option linter.unusedVariables false

/-!
Shallow embedding of the wanvidgen model-lifecycle and generation-orchestration
subsystem (`src/wanvidgen/exceptions.py`, `src/wanvidgen/memory.py`,
`src/wanvidgen/models/*.py`, `src/wanvidgen/pipeline.py`).

Conventions of the embedding:
* Python exceptions become an explicit error type (`PyError`); raising is
  returning `Except.error`.
* Mutable object state becomes explicit state records threaded through
  functions.
* The ambient torch global RNG is modelled as a stream position `g : ℕ`;
  each call to `torch.randn` / `torch.randn_like` produces a tensor tagged
  with the current position and advances the position.  Two draws at
  distinct positions are distinct values of the model, reflecting that
  successive draws from the global generator are fresh samples.
* Tensors are modelled symbolically: a tensor is either a fresh random draw
  (with its shape and stream position) or an arithmetic image of one, which
  is all the pipeline code does with them.
* Live device readings (free/allocated MB) are modelled as fields of the
  state, held fixed during a call.
-/

namespace WanVidGen

/-- The exception classes of `exceptions.py` (all subclasses of
`WanVidGenException`). -/
inductive ErrorKind
  | configError
  | modelLoadError
  | gpuMemoryError
  | pipelineError
  | generationError
deriving DecidableEq, Repr

/-- `WanVidGenException`: carries a technical message and a user-facing
message. -/
structure WanError where
  kind : ErrorKind
  message : String
  userMessage : String
deriving DecidableEq, Repr

/-- `WanVidGenException.__init__`: `self.user_message = user_message or message`
(the user message defaults to the technical message when `None`). -/
def mkWanError (kind : ErrorKind) (message : String)
    (userMessage : Option String) : WanError :=
  { kind := kind, message := message,
    userMessage := userMessage.getD message }

/-- Python exceptions that can propagate through the subsystem: the
project's own `WanVidGenException` subclasses, or a builtin
`AttributeError` (raised when an attribute such as `.to` is missing). -/
inductive PyError
  | wan (e : WanError)
  | attributeError (className attr : String)
deriving DecidableEq, Repr

/-- `str(e)` as used in f-strings of the source.  For a
`WanVidGenException` this is its technical message; for `AttributeError`
Python renders the class and attribute names (quoting omitted here). -/
def pyStr : PyError → String
  | .wan e => e.message
  | .attributeError c a => c ++ " object has no attribute " ++ a

/-- `isinstance(e, GenerationError)`. -/
def PyError.isGenerationError : PyError → Bool
  | .wan e => e.kind = .generationError
  | _ => false

/-! ### `memory.py` — `MemoryManager` -/

/-- State of `MemoryManager.__init__`.  `isCuda` embeds
`device == "cuda" and torch.cuda.is_available()`, with the availability of
CUDA an input of the constructor model. -/
structure MemoryManager where
  device : String
  minFreeMemoryMb : ℚ
  isCuda : Bool
deriving DecidableEq, Repr

/-- `MemoryManager(device, min_free_memory_mb=256)`, parameterised by
whether `torch.cuda.is_available()` holds in the environment. -/
def mkMemoryManager (device : String) (cudaAvailable : Bool)
    (minFreeMemoryMb : ℚ := 256) : MemoryManager :=
  { device := device, minFreeMemoryMb := minFreeMemoryMb,
    isCuda := device == "cuda" && cudaAvailable }

/-- `MemoryManager.get_free_gpu_memory_mb`: `none` models the
`float("inf")` sentinel returned off-CUDA; on CUDA the live free figure
(total minus allocated) is the ambient reading `deviceFreeMb`. -/
def getFreeGpuMemoryMb (mm : MemoryManager) (deviceFreeMb : ℚ) : Option ℚ :=
  if mm.isCuda then some deviceFreeMb else none

/-- `MemoryManager.check_available_memory(required_mb)`. -/
def checkAvailableMemory (mm : MemoryManager) (deviceFreeMb : ℚ)
    (requiredMb : ℚ) : Bool :=
  if !mm.isCuda then true
  else deviceFreeMb ≥ requiredMb

/-- `MemoryManager.assert_memory_available(required_mb, operation_name)`:
raises `GPUMemoryError` when on CUDA and the free figure is below the
requirement.  The f-string number formatting of the source messages is
abbreviated; no claim depends on these message bodies. -/
def assertMemoryAvailable (mm : MemoryManager) (deviceFreeMb : ℚ)
    (requiredMb : ℚ) (operationName : String) : Except PyError Unit :=
  if !mm.isCuda then .ok ()
  else if deviceFreeMb < requiredMb then
    .error (.wan (mkWanError .gpuMemoryError
      "GPU memory insufficient"
      (some ("Insufficient GPU memory for " ++ operationName ++
        ". Try reducing batch size or image resolution."))))
  else .ok ()

/-- `MemoryManager.get_memory_stats().get("allocated_mb", 0)`: off CUDA the
stats dict has no `allocated_mb` key, so the lookup defaults to `0`. -/
def statsAllocatedMb (mm : MemoryManager) (deviceAllocMb : ℚ) : ℚ :=
  if mm.isCuda then deviceAllocMb else 0

/-! ### Tensors and the global RNG

`torch.randn(...)` draws from the process-global torch RNG.  The stream is
modelled by its position `g : ℕ`; a draw yields a tensor tagged with the
position and advances it by one.  The pipeline applies only `(t + 1) / 2`
and `torch.clamp(t, 0, 1)` to tensors, modelled symbolically. -/

/-- Symbolic tensor values produced by the pipeline code. -/
inductive Tensor
  /-- `torch.randn(*shape)` / `torch.randn_like(t)`: a fresh draw of the
  given shape made at global-RNG position `draw`. -/
  | randn (shape : List Int) (draw : ℕ)
  /-- `(t + 1) / 2` (the normalisation applied to decoded frames). -/
  | addOneHalve (t : Tensor)
  /-- `torch.clamp(t, lo, hi)`. -/
  | clamp (lo hi : ℚ) (t : Tensor)
deriving DecidableEq, Repr

/-- `t.shape` of the modelled tensor (elementwise ops preserve shape). -/
def Tensor.shapeOf : Tensor → List Int
  | .randn shape _ => shape
  | .addOneHalve t => t.shapeOf
  | .clamp _ _ t => t.shapeOf

/-! ### `models/base_manager.py` and the three concrete managers

The placeholder loaders of the source (`_load_clip_model` etc.) build an
instance of an empty dynamically-created class, e.g.
`type("CLIPModel", (), {})()`.  Such an object has no `to` method, which
matters in `move_to_device`.  A loaded handle is modelled by its class
name plus whether it has a `to` attribute; the manager loads are
parameterised by the handle the underlying loader produced, with the
source's placeholder (`hasToMethod := false`) as the concrete instance. -/

/-- An opaque loaded-model object (`self.model` when not `None`). -/
structure ModelHandle where
  className : String
  hasToMethod : Bool
deriving DecidableEq, Repr

/-- `type("CLIPModel", (), {})()` — no attributes, in particular no `to`. -/
def placeholderClipModel : ModelHandle :=
  { className := "CLIPModel", hasToMethod := false }

/-- `type("CLIPTokenizer", (), {})()`. -/
def placeholderClipTokenizer : ModelHandle :=
  { className := "CLIPTokenizer", hasToMethod := false }

/-- `type("VAEModel", (), {})()`. -/
def placeholderVaeModel : ModelHandle :=
  { className := "VAEModel", hasToMethod := false }

/-- `type("UNetModel", (), {})()`. -/
def placeholderUnetModel : ModelHandle :=
  { className := "UNetModel", hasToMethod := false }

/-- Mutable state of a `BaseModelManager` subclass instance.  `tokenizer`
is used only by `CLIPManager` (kept `none` by the other two). -/
structure ManagerState where
  configPath : String
  device : String
  quantization : Option String
  model : Option ModelHandle
  tokenizer : Option ModelHandle
deriving DecidableEq, Repr

/-- A freshly constructed manager (after `__init__` validated the path):
`self.model = None`, and for CLIP `self.tokenizer = None`. -/
def freshManager (configPath device : String)
    (quantization : Option String) : ManagerState :=
  { configPath := configPath, device := device,
    quantization := quantization, model := none, tokenizer := none }

/-- `BaseModelManager.is_loaded`: `self.model is not None`. -/
def ManagerState.isLoadedB (m : ManagerState) : Bool :=
  m.model.isSome

/-- `BaseModelManager.move_to_device`: raises `ModelLoadError` when
`self.model is None`, otherwise calls `self.model.to(self.device)` —
which raises `AttributeError` when the handle has no `to` method (as the
source placeholders do not). -/
def moveToDevice (m : ManagerState) : Except PyError Unit :=
  match m.model with
  | none => .error (.wan (mkWanError .modelLoadError
      "Cannot move unloaded model to device" none))
  | some h =>
    if h.hasToMethod then .ok ()
    else .error (.attributeError h.className "to")

/-- `CLIPManager.load`, parameterised by the handles the underlying
loaders return (`_load_clip_model` / `_load_clip_tokenizer`; in the
source these are the placeholder objects).  Mirrors the source order:
no-op when loaded; else assign `self.model`, assign `self.tokenizer`,
then `move_to_device`; any exception in the `try` block is translated to
`ModelLoadError` — and the already-made assignments are kept. -/
def clipLoad (modelHandle tokenizerHandle : ModelHandle)
    (m : ManagerState) : Except PyError Unit × ManagerState :=
  if m.isLoadedB then (.ok (), m)
  else
    let m1 := { m with model := some modelHandle }
    let m2 := { m1 with tokenizer := some tokenizerHandle }
    match moveToDevice m2 with
    | .ok () => (.ok (), m2)
    | .error e =>
      (.error (.wan (mkWanError .modelLoadError
        ("Failed to load CLIP model from " ++ m.configPath ++ ": " ++ pyStr e)
        (some "Failed to load CLIP text encoder model"))), m2)

/-- `CLIPManager.unload`: drop model and tokenizer (cache release is a
device no-op in the model). -/
def clipUnload (m : ManagerState) : ManagerState :=
  { m with model := none, tokenizer := none }

/-- `VAEManager.load`, parameterised by the handle `_load_vae_model`
returns (the source placeholder). -/
def vaeLoad (modelHandle : ModelHandle)
    (m : ManagerState) : Except PyError Unit × ManagerState :=
  if m.isLoadedB then (.ok (), m)
  else
    let m1 := { m with model := some modelHandle }
    match moveToDevice m1 with
    | .ok () => (.ok (), m1)
    | .error e =>
      (.error (.wan (mkWanError .modelLoadError
        ("Failed to load VAE model from " ++ m.configPath ++ ": " ++ pyStr e)
        (some "Failed to load VAE autoencoder model"))), m1)

/-- `VAEManager.unload`. -/
def vaeUnload (m : ManagerState) : ManagerState :=
  { m with model := none }

/-- `UNetManager.load`, parameterised by the handle `_load_unet_model`
returns (the source placeholder). -/
def unetLoad (modelHandle : ModelHandle)
    (m : ManagerState) : Except PyError Unit × ManagerState :=
  if m.isLoadedB then (.ok (), m)
  else
    let m1 := { m with model := some modelHandle }
    match moveToDevice m1 with
    | .ok () => (.ok (), m1)
    | .error e =>
      (.error (.wan (mkWanError .modelLoadError
        ("Failed to load UNet model from " ++ m.configPath ++ ": " ++ pyStr e)
        (some "Failed to load UNet denoising model"))), m1)

/-- `UNetManager.unload`. -/
def unetUnload (m : ManagerState) : ManagerState :=
  { m with model := none }

/-- `CLIPManager.encode_text` on a single string: raises `ModelLoadError`
when unloaded, else `torch.randn(1, 768)` drawn from the global RNG
(`batch_size = 1` for a `str` argument; the text itself does not enter
the placeholder draw). -/
def encodeText (clip : ManagerState) (text : String) (g : ℕ) :
    Except PyError (Tensor × ℕ) :=
  if clip.isLoadedB then
    .ok (Tensor.randn [1, 768] g, g + 1)
  else
    .error (.wan (mkWanError .modelLoadError
      "CLIP model not loaded. Call load() first." none))

/-- `UNetManager.denoise(latent, timestep, encoder_hidden_states,
guidance_scale)`: raises `ModelLoadError` when unloaded, else
`torch.randn_like(latent)` — a fresh draw of the latent's shape (the
placeholder ignores timestep, conditioning and guidance). -/
def unetDenoise (unet : ManagerState) (latent : Tensor) (timestep : Int)
    (encoderHiddenStates : Tensor) (guidanceScale : ℚ) (g : ℕ) :
    Except PyError (Tensor × ℕ) :=
  if unet.isLoadedB then
    .ok (Tensor.randn latent.shapeOf g, g + 1)
  else
    .error (.wan (mkWanError .modelLoadError
      "UNet model not loaded. Call load() first." none))

/-- `VAEManager.decode`: raises `ModelLoadError` when unloaded, else
`torch.randn(batch, 3, h*8, w*8)` with `batch`/`h`/`w` read off the
latent's shape (`shape[0]`, `shape[2]`, `shape[3]`; latents here are
rank 4, so the indexing never faults). -/
def vaeDecode (vae : ManagerState) (latent : Tensor) (g : ℕ) :
    Except PyError (Tensor × ℕ) :=
  if vae.isLoadedB then
    let sh := latent.shapeOf
    .ok (Tensor.randn [sh.getD 0 0, 3, sh.getD 2 0 * 8, sh.getD 3 0 * 8] g,
      g + 1)
  else
    .error (.wan (mkWanError .modelLoadError
      "VAE model not loaded. Call load() first." none))

/-! ### `pipeline.py` — `GenerationConfig`, `GenerationResult`,
`GenerationPipeline` -/

/-- `GenerationConfig` dataclass (defaults as in the source; the unused
`extra_params` dict is omitted — no modelled operation reads it). -/
structure GenerationConfig where
  prompt : String
  negativePrompt : String := ""
  height : Int := 512
  width : Int := 512
  numInferenceSteps : Int := 50
  sampler : String := "ddim"
  scheduler : String := "linear"
  seed : Int := 42
  fps : Int := 8
  clipGuidanceScale : ℚ := 15 / 2
deriving DecidableEq, Repr

/-- The metadata dict assembled by `GenerationPipeline.generate` (its keys
are fixed in the source, so it is modelled as a record). -/
structure Metadata where
  fps : Int
  height : Int
  width : Int
  numFrames : ℕ
  sampler : String
  scheduler : String
  numInferenceSteps : Int
  seed : Int
  memoryBeforeMb : ℚ
  memoryAfterMb : ℚ
deriving DecidableEq, Repr

/-- `GenerationResult` dataclass. -/
structure GenerationResult where
  frames : List Tensor
  metadata : Metadata
  generationConfig : GenerationConfig
deriving DecidableEq, Repr

/-- `GenerationResult.get_frame_count`: `len(self.frames)`. -/
def GenerationResult.getFrameCount (r : GenerationResult) : ℕ :=
  r.frames.length

/-- `GenerationResult.get_fps`: `self.metadata.get("fps", ...)`; the key
is always written by `generate`, so it is the metadata field. -/
def GenerationResult.getFps (r : GenerationResult) : Int :=
  r.metadata.fps

/-- Mutable state of a `GenerationPipeline` instance, together with the
ambient device readings (free/allocated MB) taken as fixed during a
call. -/
structure PipelineState where
  clip : ManagerState
  vae : ManagerState
  unet : ManagerState
  modelsLoaded : Bool
  mm : MemoryManager
  deviceFreeMb : ℚ
  deviceAllocMb : ℚ
deriving DecidableEq, Repr

/-- `GenerationPipeline.is_loaded`: returns the `_models_loaded` flag. -/
def PipelineState.isLoadedB (p : PipelineState) : Bool :=
  p.modelsLoaded

/-- `GenerationPipeline.unload`: unload the three managers, clear the
flag (the final `free_memory` cache hint has no modelled state). -/
def pipelineUnload (p : PipelineState) : PipelineState :=
  { p with
      clip := clipUnload p.clip
      vae := vaeUnload p.vae
      unet := unetUnload p.unet
      modelsLoaded := false }

/-- `GenerationPipeline.load`: load CLIP, then VAE, then UNet, then set
the flag; on any failure call `self.unload()` and re-raise as
`PipelineError`.  Parameterised by the handles the underlying loaders
produce (the source placeholders in the concrete program). -/
def pipelineLoad (clipH clipT vaeH unetH : ModelHandle)
    (p : PipelineState) : Except PyError Unit × PipelineState :=
  match clipLoad clipH clipT p.clip with
  | (.error e, c') =>
    let p' := pipelineUnload { p with clip := c' }
    (.error (.wan (mkWanError .pipelineError
      ("Failed to load models: " ++ pyStr e)
      (some "Failed to load generation models"))), p')
  | (.ok (), c') =>
    let p1 := { p with clip := c' }
    match vaeLoad vaeH p1.vae with
    | (.error e, v') =>
      let p' := pipelineUnload { p1 with vae := v' }
      (.error (.wan (mkWanError .pipelineError
        ("Failed to load models: " ++ pyStr e)
        (some "Failed to load generation models"))), p')
    | (.ok (), v') =>
      let p2 := { p1 with vae := v' }
      match unetLoad unetH p2.unet with
      | (.error e, u') =>
        let p' := pipelineUnload { p2 with unet := u' }
        (.error (.wan (mkWanError .pipelineError
          ("Failed to load models: " ++ pyStr e)
          (some "Failed to load generation models"))), p')
      | (.ok (), u') =>
        (.ok (), { p2 with unet := u', modelsLoaded := true })

/-- `GenerationPipeline._validate_generation_config`.  Note the prompt
test is Python truthiness `not config.prompt`, which is true exactly for
the empty string. -/
def validateGenerationConfig (cfg : GenerationConfig) :
    Except PyError Unit :=
  if cfg.prompt = "" then
    .error (.wan (mkWanError .generationError
      "Prompt cannot be empty"
      (some "Please provide a prompt for generation")))
  else if cfg.height ≤ 0 ∨ cfg.width ≤ 0 then
    .error (.wan (mkWanError .generationError
      "Height and width must be positive"
      (some "Invalid image dimensions")))
  else if cfg.numInferenceSteps < 1 then
    .error (.wan (mkWanError .generationError
      "Number of inference steps must be positive"
      (some "Invalid number of steps")))
  else if cfg.fps < 1 then
    .error (.wan (mkWanError .generationError
      "FPS must be positive"
      (some "Invalid frames per second")))
  else .ok ()

/-- `GenerationPipeline._check_memory_requirements`: a fixed conservative
estimate of 15000 MB, checked via `assert_memory_available`. -/
def checkMemoryRequirements (p : PipelineState) (cfg : GenerationConfig) :
    Except PyError Unit :=
  assertMemoryAvailable p.mm p.deviceFreeMb 15000
    ("video generation (" ++ toString cfg.width ++ "x" ++
      toString cfg.height ++ ")")

/-- One entry of the model-invocation trace recorded by the embedding (to
express "before any model call" and the loop's call sequence). -/
inductive ModelCall
  | encodeTextCall (text : String)
  | denoiseCall (timestep : Int)
  | decodeCall
deriving DecidableEq, Repr

/-- The timestep of loop iteration `step` out of `n`:
`int((1 - step / n) * 1000)`, i.e. the truncation of the linear schedule
`1000 * (n - step) / n`.  The source computes this in IEEE-754 doubles;
the exact-arithmetic value modelled here can differ from the double
rounding by one unit at exact-integer boundaries, which none of the
schedule-shape properties proved below depend on. -/
def timestepAt (n step : ℕ) : Int :=
  Int.ofNat (1000 * (n - step) / n)

/-- The initial latent of `_generate_frames`:
`torch.randn(1, 4, height // 8, width // 8)` — a fresh draw from the
global RNG at position `g`.  The request's `seed` field is not consulted
anywhere in this construction. -/
def initialLatent (cfg : GenerationConfig) (g : ℕ) : Tensor :=
  Tensor.randn [1, 4, Int.fdiv cfg.height 8, Int.fdiv cfg.width 8] g

/-- The diffusion loop of `_generate_frames` over the remaining step
indices: each iteration computes its timestep, calls
`unet_manager.denoise(latent, timestep, prompt_embeddings,
guidance_scale)`, and replaces the latent with the returned one. -/
def diffusionLoop (unet : ManagerState) (n : ℕ) (promptEmb : Tensor)
    (guidance : ℚ) :
    List ℕ → Tensor × ℕ → Except PyError (Tensor × ℕ × List ModelCall)
  | [], (latent, g) => .ok (latent, g, [])
  | step :: rest, (latent, g) =>
    let t := timestepAt n step
    match unetDenoise unet latent t promptEmb guidance g with
    | .error e => .error e
    | .ok (denoised, g1) =>
      match diffusionLoop unet n promptEmb guidance rest (denoised, g1) with
      | .error e => .error e
      | .ok (latentF, gF, tr) => .ok (latentF, gF, .denoiseCall t :: tr)

/-- The decode loop of `_generate_frames`: `num_frames` times, decode the
final latent and normalise the frame to `[0, 1]` via `(frame + 1) / 2`
then `torch.clamp(frame, 0, 1)`. -/
def decodeFrames (vae : ManagerState) (latent : Tensor) :
    ℕ → ℕ → Except PyError (List Tensor × ℕ × List ModelCall)
  | 0, g => .ok ([], g, [])
  | k + 1, g =>
    match vaeDecode vae latent g with
    | .error e => .error e
    | .ok (decoded, g1) =>
      let frame := Tensor.clamp 0 1 (Tensor.addOneHalve decoded)
      match decodeFrames vae latent k g1 with
      | .error e => .error e
      | .ok (frames, gF, tr) => .ok (frame :: frames, gF, .decodeCall :: tr)

/-- `GenerationPipeline._generate_frames(config, prompt_embeddings,
negative_embeddings, num_frames=8)`: draw the initial latent, run the
diffusion loop over `range(config.num_inference_steps)`, then decode
`num_frames` frames from the final latent. -/
def generateFrames (p : PipelineState) (cfg : GenerationConfig)
    (promptEmb : Tensor) (negativeEmb : Option Tensor) (g : ℕ)
    (numFrames : ℕ := 8) :
    Except PyError (List Tensor × ℕ × List ModelCall) :=
  let latent0 := initialLatent cfg g
  let n := cfg.numInferenceSteps.toNat
  match diffusionLoop p.unet n promptEmb cfg.clipGuidanceScale
      (List.range n) (latent0, g + 1) with
  | .error e => .error e
  | .ok (latentF, g1, tr1) =>
    match decodeFrames p.vae latentF numFrames g1 with
    | .error e => .error e
    | .ok (frames, g2, tr2) => .ok (frames, g2, tr1 ++ tr2)

/-- The `except` clause of `GenerationPipeline.generate`: a
`GenerationError` is re-raised unchanged; every other exception is
wrapped into a fresh `GenerationError` with a generic user-facing
message. -/
def wrapGenerateError (e : PyError) : PyError :=
  if e.isGenerationError then e
  else
    .wan (mkWanError .generationError
      ("Generation failed: " ++ pyStr e)
      (some "Video generation failed. Please try again with different parameters."))

/-- Result of one `generate` call in the embedding: the returned value or
raised exception, the advanced global-RNG position, and the trace of
model invocations made. -/
structure GenOutcome where
  result : Except PyError GenerationResult
  rngAfter : ℕ
  trace : List ModelCall
deriving Repr

instance : DecidableEq (Except PyError GenerationResult) :=
  fun a b =>
    match a, b with
    | .ok x, .ok y =>
      if h : x = y then .isTrue (by rw [h]) else .isFalse (by simp [h])
    | .error x, .error y =>
      if h : x = y then .isTrue (by rw [h]) else .isFalse (by simp [h])
    | .ok _, .error _ => .isFalse (by simp)
    | .error _, .ok _ => .isFalse (by simp)

instance : DecidableEq GenOutcome :=
  fun a b =>
    if h : a.result = b.result ∧ a.rngAfter = b.rngAfter ∧
        a.trace = b.trace then
      .isTrue (by cases a; cases b; simp_all)
    else .isFalse (by cases a; cases b; simp_all)

/-- The `try` block of `GenerationPipeline.generate` (steps 3–9): snapshot
memory, encode the prompt (and the negative prompt when truthy), generate
frames, snapshot memory again, assemble metadata and the result. -/
def generateTry (p : PipelineState) (cfg : GenerationConfig) (g : ℕ) :
    GenOutcome :=
  let memoryBefore := statsAllocatedMb p.mm p.deviceAllocMb
  match encodeText p.clip cfg.prompt g with
  | .error e => { result := .error e, rngAfter := g, trace := [] }
  | .ok (promptEmb, g1) =>
    let tr0 := [ModelCall.encodeTextCall cfg.prompt]
    match
      (if cfg.negativePrompt ≠ "" then
        match encodeText p.clip cfg.negativePrompt g1 with
        | .error e => .error e
        | .ok (negEmb, g2) =>
          .ok (some negEmb, g2, tr0 ++ [ModelCall.encodeTextCall cfg.negativePrompt])
      else
        (.ok (none, g1, tr0) :
          Except PyError (Option Tensor × ℕ × List ModelCall))) with
    | .error e => { result := .error e, rngAfter := g1, trace := tr0 }
    | .ok (negativeEmb, g2, tr1) =>
      match generateFrames p cfg promptEmb negativeEmb g2 with
      | .error e => { result := .error e, rngAfter := g2, trace := tr1 }
      | .ok (frames, g3, tr2) =>
        let memoryAfter := statsAllocatedMb p.mm p.deviceAllocMb
        let metadata : Metadata :=
          { fps := cfg.fps, height := cfg.height, width := cfg.width,
            numFrames := frames.length, sampler := cfg.sampler,
            scheduler := cfg.scheduler,
            numInferenceSteps := cfg.numInferenceSteps, seed := cfg.seed,
            memoryBeforeMb := memoryBefore, memoryAfterMb := memoryAfter }
        { result := .ok { frames := frames, metadata := metadata,
                          generationConfig := cfg },
          rngAfter := g3, trace := tr1 ++ tr2 }

/-- `GenerationPipeline.generate`: guard on `is_loaded()`, validate the
request, check the memory budget, then run the `try` block with its
`except` clause wrapping non-`GenerationError` exceptions. -/
def generate (p : PipelineState) (cfg : GenerationConfig) (g : ℕ) :
    GenOutcome :=
  if !p.isLoadedB then
    { result := .error (.wan (mkWanError .pipelineError
        "Models not loaded. Call load() first."
        (some "Pipeline not ready. Please initialize models first."))),
      rngAfter := g, trace := [] }
  else
    match validateGenerationConfig cfg with
    | .error e => { result := .error e, rngAfter := g, trace := [] }
    | .ok () =>
      match checkMemoryRequirements p cfg with
      | .error e => { result := .error e, rngAfter := g, trace := [] }
      | .ok () =>
        let out := generateTry p cfg g
        match out.result with
        | .ok r => out
        | .error e => { out with result := .error (wrapGenerateError e) }

/-! ### Auxiliary semantics definitions -/

/-- The `GenerationResult` a successful `generate` run assembles from its
frame list (the metadata dict literal of the source, with
`num_frames = len(frames)` and the memory snapshots of an unchanged
ambient reading). -/
def successResult (p : PipelineState) (cfg : GenerationConfig)
    (frames : List Tensor) : GenerationResult :=
  { frames := frames
    metadata := { fps := cfg.fps
                  height := cfg.height
                  width := cfg.width
                  numFrames := frames.length
                  sampler := cfg.sampler
                  scheduler := cfg.scheduler
                  numInferenceSteps := cfg.numInferenceSteps
                  seed := cfg.seed
                  memoryBeforeMb := statsAllocatedMb p.mm p.deviceAllocMb
                  memoryAfterMb := statsAllocatedMb p.mm p.deviceAllocMb }
    generationConfig := cfg }

/-- The sequential-replacement semantics of the diffusion loop: starting
from `latent`, each iteration's denoised output (a fresh draw of the
current latent's shape) replaces the current latent. -/
def foldLatent : List ℕ → Tensor → ℕ → Tensor
  | [], latent, _ => latent
  | _ :: rest, latent, g => foldLatent rest (Tensor.randn latent.shapeOf g) (g + 1)

/-! ### Concrete fixtures (states reachable in the source, used to
evaluate the embedding at concrete inputs) -/

/-- `MemoryManager("cpu")` in an environment without CUDA. -/
def cpuMm : MemoryManager := mkMemoryManager "cpu" false

/-- A freshly constructed `CLIPManager("clip.gguf", device="cpu")`. -/
def clipFresh : ManagerState := freshManager "clip.gguf" "cpu" none

/-- A CLIP manager holding the placeholder model and tokenizer objects. -/
def loadedClip : ManagerState :=
  { clipFresh with
      model := some placeholderClipModel
      tokenizer := some placeholderClipTokenizer }

/-- A VAE manager holding the placeholder model object. -/
def loadedVae : ManagerState :=
  { freshManager "vae.gguf" "cpu" none with model := some placeholderVaeModel }

/-- A UNet manager holding the placeholder model object. -/
def loadedUnet : ManagerState :=
  { freshManager "unet.gguf" "cpu" none with model := some placeholderUnetModel }

/-- A pipeline on CPU with all three managers holding models and the
`_models_loaded` flag set. -/
def pLoaded : PipelineState :=
  { clip := loadedClip, vae := loadedVae, unet := loadedUnet,
    modelsLoaded := true, mm := cpuMm, deviceFreeMb := 0, deviceAllocMb := 0 }

/-- A freshly constructed pipeline on CPU (nothing loaded). -/
def pFresh : PipelineState :=
  { clip := clipFresh,
    vae := freshManager "vae.gguf" "cpu" none,
    unet := freshManager "unet.gguf" "cpu" none,
    modelsLoaded := false, mm := cpuMm, deviceFreeMb := 0, deviceAllocMb := 0 }

/-- A mixed state: the `_models_loaded` flag is set but the CLIP manager
was unloaded underneath it (reachable in the source by calling
`pipeline.clip_manager.unload()` after a successful `pipeline.load()`,
since `unload` on the manager does not clear the pipeline flag). -/
def pMixed : PipelineState :=
  { pLoaded with clip := clipUnload loadedClip }

/-- A representative valid request: `GenerationConfig(prompt="a test scene")`
with the dataclass defaults for every other field. -/
def cfgTest : GenerationConfig := { prompt := "a test scene" }

/-! ## Helper lemmas -/

lemma validateGenerationConfig_ok (cfg : GenerationConfig)
    (h1 : cfg.prompt ≠ "") (h2 : 0 < cfg.height) (h3 : 0 < cfg.width)
    (h4 : 1 ≤ cfg.numInferenceSteps) (h5 : 1 ≤ cfg.fps) :
    validateGenerationConfig cfg = .ok () := by
  unfold validateGenerationConfig
  rw [if_neg h1, if_neg (by omega), if_neg (by omega), if_neg (by omega)]

lemma assertMemoryAvailable_ok (mm : MemoryManager) (free req : ℚ)
    (name : String) (h : mm.isCuda = false ∨ req ≤ free) :
    assertMemoryAvailable mm free req name = .ok () := by
  unfold assertMemoryAvailable
  rcases h with h | h
  · simp [h]
  · by_cases hc : mm.isCuda
    · simp [hc, not_lt.mpr h]
    · simp [hc]

lemma diffusionLoop_ok (unet : ManagerState) (n : ℕ) (emb : Tensor)
    (gsc : ℚ) (hu : unet.isLoadedB = true) :
    ∀ (steps : List ℕ) (latent : Tensor) (g : ℕ),
    diffusionLoop unet n emb gsc steps (latent, g) =
      .ok (foldLatent steps latent g, g + steps.length,
        steps.map fun k => ModelCall.denoiseCall (timestepAt n k)) := by
  intro steps
  induction steps with
  | nil => intro latent g; simp [diffusionLoop, foldLatent]
  | cons s rest ih =>
    intro latent g
    have hg : g + 1 + rest.length = g + (rest.length + 1) := by omega
    simp only [diffusionLoop, unetDenoise, hu, if_true, ih, foldLatent,
      List.map_cons, List.length_cons, hg]

lemma foldLatent_final (steps : List ℕ) :
    ∀ (latent : Tensor) (g : ℕ), steps ≠ [] →
    foldLatent steps latent g =
      Tensor.randn latent.shapeOf (g + steps.length - 1) := by
  induction steps with
  | nil => intro latent g h; exact absurd rfl h
  | cons s rest ih =>
    intro latent g _
    cases rest with
    | nil => simp [foldLatent]
    | cons t r =>
      rw [foldLatent, ih _ _ (by simp)]
      simp only [Tensor.shapeOf, List.length_cons]
      congr 1
      omega

lemma decodeFrames_ok (vae : ManagerState) (hv : vae.isLoadedB = true) :
    ∀ (k : ℕ) (latent : Tensor) (g : ℕ),
    ∃ frames : List Tensor,
      decodeFrames vae latent k g =
        .ok (frames, g + k, List.replicate k .decodeCall) ∧
      frames.length = k := by
  intro k
  induction k with
  | zero => intro latent g; exact ⟨[], by simp [decodeFrames], rfl⟩
  | succ k ih =>
    intro latent g
    obtain ⟨frames, hdf, hlen⟩ := ih latent (g + 1)
    have hg : g + 1 + k = g + (k + 1) := by omega
    rw [hg] at hdf
    refine ⟨Tensor.clamp 0 1 (Tensor.addOneHalve
      (Tensor.randn [latent.shapeOf.getD 0 0, 3, latent.shapeOf.getD 2 0 * 8,
        latent.shapeOf.getD 3 0 * 8] g)) :: frames, ?_, by simp [hlen]⟩
    simp only [decodeFrames, vaeDecode, hv, if_true, hdf,
      List.replicate_succ]

lemma decodeFrames_len (vae : ManagerState) :
    ∀ (k : ℕ) (latent : Tensor) (g g' : ℕ) (frames : List Tensor)
      (tr : List ModelCall),
    decodeFrames vae latent k g = .ok (frames, g', tr) →
    frames.length = k := by
  intro k
  induction k with
  | zero =>
    intro latent g g' frames tr h
    simp only [decodeFrames] at h
    cases h
    rfl
  | succ k ih =>
    intro latent g g' frames tr h
    rcases hd : vaeDecode vae latent g with e | ⟨decoded, g1⟩
    · simp [decodeFrames, hd] at h
    · rcases hrec : decodeFrames vae latent k g1 with e | ⟨fr, gF, trF⟩
      · simp [decodeFrames, hd, hrec] at h
      · simp only [decodeFrames, hd, hrec] at h
        obtain ⟨rfl, rfl, rfl⟩ := h
        simp [ih latent g1 _ fr trF hrec]

lemma generateFrames_len (p : PipelineState) (cfg : GenerationConfig)
    (emb : Tensor) (neg : Option Tensor) (g g' : ℕ)
    (frames : List Tensor) (tr : List ModelCall)
    (h : generateFrames p cfg emb neg g = .ok (frames, g', tr)) :
    frames.length = 8 := by
  rcases hd : diffusionLoop p.unet cfg.numInferenceSteps.toNat emb
      cfg.clipGuidanceScale (List.range cfg.numInferenceSteps.toNat)
      (initialLatent cfg g, g + 1) with e | ⟨latentF, g1, tr1⟩
  · simp [generateFrames, hd] at h
  · rcases hdec : decodeFrames p.vae latentF 8 g1 with e | ⟨fr, g2, tr2⟩
    · simp [generateFrames, hd, hdec] at h
    · simp only [generateFrames, hd, hdec] at h
      obtain ⟨rfl, rfl, rfl⟩ := h
      exact decodeFrames_len _ _ _ _ _ _ _ hdec

/-- Every output of the `except` clause of `generate` is a
`GenerationError`. -/
lemma wrapGenerateError_kind (e : PyError) :
    ∃ w, wrapGenerateError e = .wan w ∧ w.kind = .generationError := by
  unfold wrapGenerateError
  by_cases h : e.isGenerationError
  · rcases e with w | c
    · refine ⟨w, by simp [h], ?_⟩
      simpa [PyError.isGenerationError] using h
    · simp [PyError.isGenerationError] at h
  · exact ⟨mkWanError .generationError ("Generation failed: " ++ pyStr e)
      (some "Video generation failed. Please try again with different parameters."),
      by simp [h], rfl⟩

lemma generateFrames_ok (p : PipelineState) (cfg : GenerationConfig)
    (emb : Tensor) (neg : Option Tensor) (g : ℕ)
    (hv : p.vae.isLoadedB = true) (hu : p.unet.isLoadedB = true) :
    ∃ frames g' tr, generateFrames p cfg emb neg g = .ok (frames, g', tr) ∧
      frames.length = 8 := by
  have hδ := diffusionLoop_ok p.unet cfg.numInferenceSteps.toNat emb
    cfg.clipGuidanceScale hu (List.range cfg.numInferenceSteps.toNat)
    (initialLatent cfg g) (g + 1)
  obtain ⟨frames, hdf, hlen⟩ := decodeFrames_ok p.vae hv 8
    (foldLatent (List.range cfg.numInferenceSteps.toNat)
      (initialLatent cfg g) (g + 1))
    (g + 1 + (List.range cfg.numInferenceSteps.toNat).length)
  refine ⟨frames,
    g + 1 + (List.range cfg.numInferenceSteps.toNat).length + 8,
    (List.range cfg.numInferenceSteps.toNat).map
        (fun k => ModelCall.denoiseCall (timestepAt cfg.numInferenceSteps.toNat k))
      ++ List.replicate 8 ModelCall.decodeCall, ?_, hlen⟩
  simp only [generateFrames, hδ, hdf]

lemma generateTry_ok (p : PipelineState) (cfg : GenerationConfig) (g : ℕ)
    (hc : p.clip.isLoadedB = true) (hv : p.vae.isLoadedB = true)
    (hu : p.unet.isLoadedB = true) :
    ∃ frames : List Tensor, frames.length = 8 ∧
      (generateTry p cfg g).result = .ok (successResult p cfg frames) := by
  have he : ∀ t g₀, encodeText p.clip t g₀ =
      .ok (Tensor.randn [1, 768] g₀, g₀ + 1) := by
    intro t g₀; simp [encodeText, hc]
  by_cases hneg : cfg.negativePrompt = ""
  · obtain ⟨frames, g', tr, hgf, hlen⟩ :=
      generateFrames_ok p cfg (Tensor.randn [1, 768] g) none (g + 1) hv hu
    refine ⟨frames, hlen, ?_⟩
    simp only [generateTry, he, hneg, ne_eq, not_true_eq_false, if_false,
      hgf, successResult]
  · obtain ⟨frames, g', tr, hgf, hlen⟩ :=
      generateFrames_ok p cfg (Tensor.randn [1, 768] g)
        (some (Tensor.randn [1, 768] (g + 1))) (g + 2) hv hu
    refine ⟨frames, hlen, ?_⟩
    simp only [generateTry, he, hneg, ne_eq, not_false_eq_true, if_true,
      hgf, successResult]

lemma generate_ok_of_try_ok (p : PipelineState) (cfg : GenerationConfig)
    (g : ℕ) (r : GenerationResult) (hl : p.isLoadedB = true)
    (hval : validateGenerationConfig cfg = .ok ())
    (hmem : checkMemoryRequirements p cfg = .ok ())
    (htry : (generateTry p cfg g).result = .ok r) :
    (generate p cfg g).result = .ok r := by
  simp [generate, PipelineState.isLoadedB] at hl ⊢
  simp [hl, hval, hmem, htry]

lemma generate_result_ok_inv (p : PipelineState) (cfg : GenerationConfig)
    (g : ℕ) (r : GenerationResult)
    (h : (generate p cfg g).result = .ok r) :
    (generateTry p cfg g).result = .ok r := by
  rcases hb : p.modelsLoaded with _ | _
  · simp [generate, PipelineState.isLoadedB, hb] at h
  · rcases hval : validateGenerationConfig cfg with e | u
    · simp [generate, PipelineState.isLoadedB, hb, hval] at h
    · cases u
      rcases hmem : checkMemoryRequirements p cfg with e | u
      · simp [generate, PipelineState.isLoadedB, hb, hval, hmem] at h
      · cases u
        rcases htry : (generateTry p cfg g).result with e | r'
        · simp [generate, PipelineState.isLoadedB, hb, hval, hmem, htry]
            at h
        · have hgen : (generate p cfg g).result = .ok r' := by
            simp [generate, PipelineState.isLoadedB, hb, hval, hmem, htry]
          rw [hgen] at h
          exact h

lemma generateTry_frames8 (p : PipelineState) (cfg : GenerationConfig)
    (g : ℕ) (r : GenerationResult)
    (h : (generateTry p cfg g).result = .ok r) :
    r.frames.length = 8 := by
  rcases he : encodeText p.clip cfg.prompt g with e | ⟨emb, g1⟩
  · simp [generateTry, he] at h
  · by_cases hneg : cfg.negativePrompt = ""
    · rcases hgf : generateFrames p cfg emb none g1 with e | ⟨frames, g3, tr2⟩
      · simp [generateTry, he, hneg, hgf] at h
      · simp only [generateTry, he, hneg, ne_eq, not_true_eq_false,
          if_false, hgf] at h
        cases h
        exact generateFrames_len _ _ _ _ _ _ _ _ hgf
    · rcases hne : encodeText p.clip cfg.negativePrompt g1 with e | ⟨nemb, g2⟩
      · simp [generateTry, he, hneg, hne] at h
      · rcases hgf : generateFrames p cfg emb (some nemb) g2 with
          e | ⟨frames, g3, tr2⟩
        · simp [generateTry, he, hneg, hne, hgf] at h
        · simp only [generateTry, he, hneg, ne_eq, not_false_eq_true,
            if_true, hne, hgf] at h
          cases h
          exact generateFrames_len _ _ _ _ _ _ _ _ hgf

/-! ## Claim theorems -/

/-- C1.  The claim asserts the request's seed deterministically drives
the initial latent construction, with bit-identical latents across two
identical runs.  In the code the initial latent is `torch.randn(...)`
with no seeding from `config.seed`: the first conjunct shows the
constructed latent is unchanged under any change of the seed field, and
the second shows two back-to-back `generate` calls with the identical
request (second call starting from the global-RNG position the first
left behind) return different results, because the initial latent and
all subsequent draws come from the advanced ambient stream. -/
theorem c1_initial_latent_ignores_seed :
    (∀ (s₁ s₂ : Int) (c : GenerationConfig) (g : ℕ),
      initialLatent { c with seed := s₁ } g =
        initialLatent { c with seed := s₂ } g) ∧
    (generate pLoaded { prompt := "a test scene", numInferenceSteps := 1 } 0).result ≠
      (generate pLoaded { prompt := "a test scene", numInferenceSteps := 1 }
        ((generate pLoaded { prompt := "a test scene", numInferenceSteps := 1 }
          0).rngAfter)).result := by
  refine ⟨fun s₁ s₂ c g => rfl, ?_⟩
  decide

/-- C2.  The claim asserts a failed `load()` leaves the manager
`Unloaded` with no partially-assigned handle.  In the code
`CLIPManager.load` assigns `self.model` (and `self.tokenizer`) before
`move_to_device`, which raises on the attribute-less placeholder; the
`except` clause re-raises as `ModelLoadError` without clearing the
assignments, so after the failure `is_loaded()` is true and the partial
handle remains. -/
theorem c2_clip_load_failure_keeps_partial_handle :
    ∃ w, (clipLoad placeholderClipModel placeholderClipTokenizer clipFresh).1 =
        .error (.wan w) ∧
      w.kind = .modelLoadError ∧
      (clipLoad placeholderClipModel placeholderClipTokenizer clipFresh).2.isLoadedB
        = true ∧
      (clipLoad placeholderClipModel placeholderClipTokenizer clipFresh).2.model
        = some placeholderClipModel := by
  exact ⟨mkWanError .modelLoadError
    "Failed to load CLIP model from clip.gguf: CLIPModel object has no attribute to"
    (some "Failed to load CLIP text encoder model"), rfl, rfl, rfl, rfl⟩

/-- C3 counterexample.  The claim asserts a whitespace-only prompt is
rejected with `GenerationError` before any model call; in the code the
validation tests Python truthiness (`not config.prompt`), which a
whitespace-only prompt passes, so generation proceeds and makes model
calls. -/
theorem c3_whitespace_prompt_passes_validation :
    validateGenerationConfig { prompt := " " } = .ok () ∧
    (generate pLoaded { prompt := " " } 0).result.isOk = true ∧
    (generate pLoaded { prompt := " " } 0).trace ≠ [] := by
  refine ⟨rfl, ?_, ?_⟩ <;> decide

/-- C3 amended.  A request whose prompt is the empty string fails with
`GenerationError` ("Prompt cannot be empty") on a loaded pipeline before
any model call (empty trace, RNG untouched); whitespace-only but
nonempty prompts are not rejected. -/
theorem c3_empty_prompt_rejected_before_model_calls
    (p : PipelineState) (cfg : GenerationConfig) (g : ℕ)
    (hl : p.isLoadedB = true) (hp : cfg.prompt = "") :
    generate p cfg g =
      { result := .error (.wan (mkWanError .generationError
          "Prompt cannot be empty"
          (some "Please provide a prompt for generation"))),
        rngAfter := g, trace := [] } := by
  simp only [PipelineState.isLoadedB] at hl
  simp [generate, PipelineState.isLoadedB, hl, validateGenerationConfig, hp]

/-- C3 amended, witness at a concrete input. -/
theorem c3_empty_prompt_witness :
    pLoaded.isLoadedB = true ∧
    generate pLoaded { prompt := "" } 0 =
      { result := .error (.wan (mkWanError .generationError
          "Prompt cannot be empty"
          (some "Please provide a prompt for generation"))),
        rngAfter := 0, trace := [] } :=
  ⟨rfl, c3_empty_prompt_rejected_before_model_calls pLoaded { prompt := "" } 0
    rfl rfl⟩

/-- C4 counterexample.  The claim asserts every defined error kind
raised inside steps 4–8 propagates out of `generate` unchanged.  On a
state whose `_models_loaded` flag is set but whose CLIP manager is
unloaded (reachable by calling `clip_manager.unload()` directly), the
encode step raises `ModelLoadError`, and `generate` returns it wrapped
as a `GenerationError` with the generic user-facing message — not the
original `ModelLoadError`. -/
theorem c4_model_load_error_wrapped :
    (generate pMixed cfgTest 0).result =
      .error (.wan (mkWanError .generationError
        "Generation failed: CLIP model not loaded. Call load() first."
        (some "Video generation failed. Please try again with different parameters."))) := by
  rfl

/-- C4 amended.  Only `GenerationError` propagates out of the `try`
block of `generate` unchanged; every other exception — the other defined
kinds included — is wrapped into a `GenerationError` with the generic
user-facing message, so any error `generate` raises past the guard,
validation and capacity check is a `GenerationError`. -/
theorem c4_only_generation_error_propagates
    : (∀ e : PyError, e.isGenerationError = true → wrapGenerateError e = e) ∧
      (∀ e : PyError, e.isGenerationError = false →
        wrapGenerateError e = .wan (mkWanError .generationError
          ("Generation failed: " ++ pyStr e)
          (some "Video generation failed. Please try again with different parameters."))) ∧
      (∀ (p : PipelineState) (cfg : GenerationConfig) (g : ℕ) (e : PyError),
        p.isLoadedB = true → validateGenerationConfig cfg = .ok () →
        checkMemoryRequirements p cfg = .ok () →
        (generate p cfg g).result = .error e →
        ∃ w, e = .wan w ∧ w.kind = .generationError) := by
  refine ⟨?_, ?_, ?_⟩
  · intro e h; simp [wrapGenerateError, h]
  · intro e h; simp [wrapGenerateError, h]
  · intro p cfg g e hl hval hmem herr
    simp only [PipelineState.isLoadedB] at hl
    rcases htry : (generateTry p cfg g).result with e' | r
    · simp only [generate, PipelineState.isLoadedB, hl, Bool.not_true,
        Bool.false_eq_true, if_false, hval, hmem, htry] at herr
      obtain ⟨w, hw, hk⟩ := wrapGenerateError_kind e'
      injection herr with hinj
      exact ⟨w, by rw [← hinj, hw], hk⟩
    · simp [generate, PipelineState.isLoadedB, hl, hval, hmem, htry]
        at herr

/-- C4 amended, witness at concrete inputs: a `GenerationError` passes
through the handler unchanged, and on the mixed state the error
`generate` raises is a `GenerationError`. -/
theorem c4_only_generation_error_witness :
    wrapGenerateError (.wan (mkWanError .generationError "boom" none)) =
      .wan (mkWanError .generationError "boom" none) ∧
    (∃ e, (generate pMixed cfgTest 0).result = .error e ∧
      ∃ w, e = .wan w ∧ w.kind = .generationError) := by
  constructor
  · exact c4_only_generation_error_propagates.1 _ rfl
  · refine ⟨.wan (mkWanError .generationError
      "Generation failed: CLIP model not loaded. Call load() first."
      (some "Video generation failed. Please try again with different parameters.")),
      rfl, ?_⟩
    exact c4_only_generation_error_propagates.2.2 pMixed cfgTest 0 _
      rfl rfl rfl rfl

/-- C5.  If any constituent load fails during `GenerationPipeline.load`
(CLIP, then VAE, then UNet, in the order fixed by the body), the
`except` clause unloads everything: the resulting state has all three
managers unloaded (model and tokenizer handles cleared) and the loaded
flag false, and the re-raised error is a `PipelineError` — never a mixed
state, for every choice of handles the underlying loaders produce. -/
theorem c5_load_failure_rolls_back
    (hc ht hv hu : ModelHandle) (p : PipelineState)
    (hfail : (pipelineLoad hc ht hv hu p).1.isOk = false) :
    (pipelineLoad hc ht hv hu p).2.clip.model = none ∧
    (pipelineLoad hc ht hv hu p).2.clip.tokenizer = none ∧
    (pipelineLoad hc ht hv hu p).2.vae.model = none ∧
    (pipelineLoad hc ht hv hu p).2.unet.model = none ∧
    (pipelineLoad hc ht hv hu p).2.isLoadedB = false ∧
    ∃ w, (pipelineLoad hc ht hv hu p).1 = .error (.wan w) ∧
      w.kind = .pipelineError := by
  rcases h1 : clipLoad hc ht p.clip with ⟨r1, c'⟩
  cases r1 with
  | error e =>
    refine ⟨?_, ?_, ?_, ?_, ?_,
      ⟨mkWanError .pipelineError ("Failed to load models: " ++ pyStr e)
        (some "Failed to load generation models"), ?_, rfl⟩⟩ <;>
      simp [pipelineLoad, h1, pipelineUnload, clipUnload, vaeUnload,
        unetUnload, PipelineState.isLoadedB]
  | ok u =>
    cases u
    rcases h2 : vaeLoad hv p.vae with ⟨r2, v'⟩
    cases r2 with
    | error e =>
      refine ⟨?_, ?_, ?_, ?_, ?_,
        ⟨mkWanError .pipelineError ("Failed to load models: " ++ pyStr e)
          (some "Failed to load generation models"), ?_, rfl⟩⟩ <;>
        simp [pipelineLoad, h1, h2, pipelineUnload, clipUnload, vaeUnload,
          unetUnload, PipelineState.isLoadedB]
    | ok u =>
      cases u
      rcases h3 : unetLoad hu p.unet with ⟨r3, u'⟩
      cases r3 with
      | error e =>
        refine ⟨?_, ?_, ?_, ?_, ?_,
          ⟨mkWanError .pipelineError ("Failed to load models: " ++ pyStr e)
            (some "Failed to load generation models"), ?_, rfl⟩⟩ <;>
          simp [pipelineLoad, h1, h2, h3, pipelineUnload, clipUnload,
            vaeUnload, unetUnload, PipelineState.isLoadedB]
      | ok u =>
        cases u
        simp [pipelineLoad, h1, h2, h3] at hfail
        exact absurd hfail (by decide)

/-- C5 witness at a concrete input: the concrete loaders of the source
(the placeholder handles) make `load` fail, and the rollback leaves the
fresh CPU pipeline fully unloaded. -/
theorem c5_load_failure_witness :
    ((pipelineLoad placeholderClipModel placeholderClipTokenizer
        placeholderVaeModel placeholderUnetModel pFresh).1.isOk = false) ∧
    ((pipelineLoad placeholderClipModel placeholderClipTokenizer
        placeholderVaeModel placeholderUnetModel pFresh).2.clip.model = none ∧
     (pipelineLoad placeholderClipModel placeholderClipTokenizer
        placeholderVaeModel placeholderUnetModel pFresh).2.clip.tokenizer = none ∧
     (pipelineLoad placeholderClipModel placeholderClipTokenizer
        placeholderVaeModel placeholderUnetModel pFresh).2.vae.model = none ∧
     (pipelineLoad placeholderClipModel placeholderClipTokenizer
        placeholderVaeModel placeholderUnetModel pFresh).2.unet.model = none ∧
     (pipelineLoad placeholderClipModel placeholderClipTokenizer
        placeholderVaeModel placeholderUnetModel pFresh).2.isLoadedB = false ∧
     ∃ w, (pipelineLoad placeholderClipModel placeholderClipTokenizer
        placeholderVaeModel placeholderUnetModel pFresh).1 = .error (.wan w) ∧
       w.kind = .pipelineError) :=
  ⟨by decide, c5_load_failure_rolls_back placeholderClipModel
    placeholderClipTokenizer placeholderVaeModel placeholderUnetModel pFresh
    (by decide)⟩

/-- C6.  For `num_inference_steps = n ≥ 1` the denoising loop of
`_generate_frames` runs exactly `n` iterations with no early exit (the
trace is one denoise call per element of `range n`), iteration `k` uses
the timestep `int((1 - k / n) * 1000)` — the truncation of the linear
schedule falling from 1000 at `k = 0` to 0 at `k = n` — and each
iteration's returned latent replaces the current one (the final latent
is the sequential fold, whose last replacement is the draw at position
`g + n - 1`). -/
theorem c6_denoising_loop_schedule
    (unet : ManagerState) (emb latent : Tensor) (gsc : ℚ) (g n : ℕ)
    (hu : unet.isLoadedB = true) (hn : 1 ≤ n) :
    diffusionLoop unet n emb gsc (List.range n) (latent, g) =
      .ok (Tensor.randn latent.shapeOf (g + n - 1), g + n,
        (List.range n).map fun k => ModelCall.denoiseCall (timestepAt n k)) ∧
    foldLatent (List.range n) latent g =
      Tensor.randn latent.shapeOf (g + n - 1) ∧
    timestepAt n 0 = 1000 ∧
    (∀ j k : ℕ, j ≤ k → timestepAt n k ≤ timestepAt n j) ∧
    timestepAt n n = 0 := by
  have hne : List.range n ≠ [] := by
    simp only [ne_eq, List.range_eq_nil]
    omega
  have hfold : foldLatent (List.range n) latent g =
      Tensor.randn latent.shapeOf (g + n - 1) := by
    rw [foldLatent_final (List.range n) latent g hne, List.length_range]
  have hloop := diffusionLoop_ok unet n emb gsc hu (List.range n) latent g
  rw [hfold, List.length_range] at hloop
  refine ⟨hloop, hfold, ?_, ?_, ?_⟩
  · show Int.ofNat (1000 * (n - 0) / n) = 1000
    rw [Nat.sub_zero, Nat.mul_div_assoc 1000 (dvd_refl n),
      Nat.div_self (by omega : 0 < n)]
    rfl
  · intro j k hjk
    exact Int.ofNat_le.mpr (Nat.div_le_div_right
      (Nat.mul_le_mul_left 1000 (Nat.sub_le_sub_left hjk n)))
  · show Int.ofNat (1000 * (n - n) / n) = 0
    simp

/-- C6 witness: the loop equation at a concrete input (four steps,
timesteps 1000, 750, 500, 250). -/
theorem c6_denoising_loop_witness :
    diffusionLoop loadedUnet 4 (Tensor.randn [1, 768] 0) (15 / 2)
      (List.range 4) (Tensor.randn [1, 4, 64, 64] 1, 2) =
      .ok (Tensor.randn (Tensor.randn [1, 4, 64, 64] 1).shapeOf (2 + 4 - 1),
        2 + 4,
        (List.range 4).map fun k => ModelCall.denoiseCall (timestepAt 4 k)) :=
  (c6_denoising_loop_schedule loadedUnet (Tensor.randn [1, 768] 0)
    (Tensor.randn [1, 4, 64, 64] 1) (15 / 2) 2 4 rfl (by decide)).1

/-- C7.  A valid request on a loaded pipeline (managers holding models,
capacity check passing) succeeds, and the outcome's metadata `height`,
`width`, `fps`, `seed` equal the request's fields, with a positive frame
count equal to the metadata's `num_frames` entry. -/
theorem c7_success_metadata_matches_request
    (p : PipelineState) (cfg : GenerationConfig) (g : ℕ)
    (hl : p.isLoadedB = true) (hc : p.clip.isLoadedB = true)
    (hv : p.vae.isLoadedB = true) (hu : p.unet.isLoadedB = true)
    (hmem : p.mm.isCuda = false ∨ (15000 : ℚ) ≤ p.deviceFreeMb)
    (hprompt : cfg.prompt ≠ "") (hh : 0 < cfg.height) (hw : 0 < cfg.width)
    (hsteps : 1 ≤ cfg.numInferenceSteps) (hfps : 1 ≤ cfg.fps) :
    ∃ r, (generate p cfg g).result = .ok r ∧
      r.metadata.height = cfg.height ∧ r.metadata.width = cfg.width ∧
      r.metadata.fps = cfg.fps ∧ r.metadata.seed = cfg.seed ∧
      0 < r.getFrameCount ∧ r.getFrameCount = r.metadata.numFrames := by
  have hval := validateGenerationConfig_ok cfg hprompt hh hw hsteps hfps
  have hm : checkMemoryRequirements p cfg = .ok () :=
    assertMemoryAvailable_ok _ _ _ _ hmem
  obtain ⟨frames, hlen, htry⟩ := generateTry_ok p cfg g hc hv hu
  refine ⟨successResult p cfg frames,
    generate_ok_of_try_ok p cfg g _ hl hval hm htry,
    rfl, rfl, rfl, rfl, ?_, rfl⟩
  simp [successResult, GenerationResult.getFrameCount, hlen]

/-- C7 witness: the success and metadata equalities at the concrete
loaded CPU pipeline and the representative valid request. -/
theorem c7_success_metadata_witness :
    ∃ r, (generate pLoaded cfgTest 0).result = .ok r ∧
      r.metadata.height = cfgTest.height ∧
      r.metadata.width = cfgTest.width ∧
      r.metadata.fps = cfgTest.fps ∧ r.metadata.seed = cfgTest.seed ∧
      0 < r.getFrameCount ∧ r.getFrameCount = r.metadata.numFrames :=
  c7_success_metadata_matches_request pLoaded cfgTest 0 rfl rfl rfl rfl
    (Or.inl rfl) (by decide) (by decide) (by decide) (by decide) (by decide)

/-- C8.  On a pipeline whose `is_loaded()` is false, `generate` fails
with `PipelineError` immediately: the outcome is a fixed error
independent of the request (so validation is never reached), with an
empty model-call trace and the RNG untouched. -/
theorem c8_generate_unloaded_fails_pipeline_error
    (p : PipelineState) (cfg : GenerationConfig) (g : ℕ)
    (h : p.isLoadedB = false) :
    generate p cfg g =
      { result := .error (.wan (mkWanError .pipelineError
          "Models not loaded. Call load() first."
          (some "Pipeline not ready. Please initialize models first."))),
        rngAfter := g, trace := [] } := by
  simp only [PipelineState.isLoadedB] at h
  simp [generate, PipelineState.isLoadedB, h]

/-- C8 witness: on the fresh pipeline even an invalid request (empty
prompt) produces the `PipelineError`, not a validation error. -/
theorem c8_generate_unloaded_witness :
    pFresh.isLoadedB = false ∧
    generate pFresh { prompt := "" } 0 =
      { result := .error (.wan (mkWanError .pipelineError
          "Models not loaded. Call load() first."
          (some "Pipeline not ready. Please initialize models first."))),
        rngAfter := 0, trace := [] } :=
  ⟨rfl, c8_generate_unloaded_fails_pipeline_error pFresh { prompt := "" } 0 rfl⟩

/-- C9.  Every successful `generate` call returns exactly 8 frames: the
frame count comes from `_generate_frames`'s `num_frames` parameter,
which `generate` never overrides from its default of 8, independent of
every request field. -/
theorem c9_successful_generate_always_eight_frames
    (p : PipelineState) (cfg : GenerationConfig) (g : ℕ)
    (r : GenerationResult) (h : (generate p cfg g).result = .ok r) :
    r.getFrameCount = 8 :=
  generateTry_frames8 p cfg g r (generate_result_ok_inv p cfg g r h)

/-- C9 witness: a concrete successful run (non-default step count and
fps) returns 8 frames. -/
theorem c9_eight_frames_witness :
    ∃ r, (generate pLoaded
        { prompt := "a test scene", numInferenceSteps := 2, fps := 24 }
        0).result = .ok r ∧ r.getFrameCount = 8 := by
  rcases hEq : (generate pLoaded
      { prompt := "a test scene", numInferenceSteps := 2, fps := 24 }
      0).result with e | r
  · have hok : (generate pLoaded
        { prompt := "a test scene", numInferenceSteps := 2, fps := 24 }
        0).result.isOk = true := by decide
    rw [hEq] at hok
    simp [Except.isOk, Except.toBool] at hok
  · exact ⟨r, rfl,
      c9_successful_generate_always_eight_frames pLoaded _ 0 r hEq⟩

/-- C10.  A `MemoryManager` whose device is not CUDA-backed (unbounded
free memory) reports capacity for every requested amount and its
capacity assertion never raises. -/
theorem c10_unbounded_device_never_blocks
    (mm : MemoryManager) (free req : ℚ) (label : String)
    (h : mm.isCuda = false) :
    checkAvailableMemory mm free req = true ∧
    assertMemoryAvailable mm free req label = .ok () := by
  refine ⟨?_, assertMemoryAvailable_ok mm free req label (Or.inl h)⟩
  simp [checkAvailableMemory, h]

/-- C10 witness: the CPU manager accepts a huge request. -/
theorem c10_unbounded_device_witness :
    cpuMm.isCuda = false ∧
    (checkAvailableMemory cpuMm 0 1000000000 = true ∧
     assertMemoryAvailable cpuMm 0 1000000000
       "video generation (512x512)" = .ok ()) :=
  ⟨rfl, c10_unbounded_device_never_blocks cpuMm 0 1000000000
    "video generation (512x512)" rfl⟩

end WanVidGen
